import Mathlib

/-
Shallow embedding of the nuclear-effects calculator (src/nuccalc.cpp) and
verification of the frozen claims about it.  Floating-point doubles are
modelled as real numbers; `pow` with real exponents is `Real.rpow`,
`log10` is `Real.logb 10`, `exp` is `Real.exp`.
-/

open Real Filter Set Topology

open scoped Classical

noncomputable section

namespace NucCalc

/-- Fallout pattern data, from struct FalloutData (nuccalc.cpp lines 49-55). -/
structure FalloutData where
  maxDownwindDistance : ℝ
  maxWidth : ℝ
  dangerousZoneArea : ℝ
  falloutAngle : ℝ

/-- One effect category's severity tiers, from struct WeaponEffects::EffectLevels
(lines 60-68): three radii (meters) and three derived areas (km²). -/
structure EffectLevels where
  severe : ℝ
  moderate : ℝ
  light : ℝ
  severeArea : ℝ
  moderateArea : ℝ
  lightArea : ℝ

/-- Aggregate result, from struct WeaponEffects (lines 58-74). -/
structure WeaponEffects where
  thermal : EffectLevels
  blast : EffectLevels
  radiation : EffectLevels
  fallout : FalloutData

/-- The calculator's mutable fields (lines 132-135), read by the calculation
functions: yield (MT), height of burst (m), airburst flag, wind speed (km/h). -/
structure Params where
  yield : ℝ
  height : ℝ
  isAirburst : Bool
  windSpeed : ℝ

/-- The numeric fields of struct CityData (lines 117-126) that the casualty
pipeline reads: core density, suburban density (people/km²), radius (km). -/
structure CityData where
  density : ℝ
  suburban_density : ℝ
  radius : ℝ

/-- Casualty result, from struct CasualtyEstimate (lines 618-627). -/
structure CasualtyEstimate where
  deaths : ℝ
  severeInjuries : ℝ
  lightInjuries : ℝ
  longTermDeaths1Year : ℝ
  longTermDeaths5Year : ℝ
  longTermDeaths10Year : ℝ
  longTermDeaths20Year : ℝ

/-- PhysicalConstants::ATMOSPHERIC_PRESSURE (line 109). -/
def ATMOSPHERIC_PRESSURE : ℝ := 101325.0

/-- PhysicalConstants::GRAVITY (line 108). -/
def GRAVITY : ℝ := 9.80665

/-- calculateArea (lines 258-261): circular area in km² from a radius in meters. -/
def calculateArea (radius : ℝ) : ℝ := π * (radius / 1000.0) ^ (2 : ℕ)

/-- The height factor computed inside applyHeightEffects (lines 191-192):
linear decrease with height, floored at 0.3. -/
def heightFactor (height : ℝ) : ℝ := max 0.3 (1.0 - height / 10000.0)

/-- applyHeightEffects (lines 188-201): multiplies the three blast radii and the
three radiation radii by the height factor; thermal and all area fields untouched. -/
def applyHeightEffects (effects : WeaponEffects) (height : ℝ) : WeaponEffects :=
  let hf := heightFactor height
  { effects with
    blast := { effects.blast with
      severe := effects.blast.severe * hf
      moderate := effects.blast.moderate * hf
      light := effects.blast.light * hf }
    radiation := { effects.radiation with
      severe := effects.radiation.severe * hf
      moderate := effects.radiation.moderate * hf
      light := effects.radiation.light * hf } }

/-- calculateBlastOverpressure (lines 437-476): modified Brode equation with
Sachs scaling and Mach-stem enhancement.  `height` is the calculator's field. -/
def calculateBlastOverpressure (distance yield height : ℝ) : ℝ :=
  let E := yield * 4.184e15
  let scaled_distance := distance / (E / ATMOSPHERIC_PRESSURE) ^ ((1 : ℝ) / 3)
  let mach_stem_factor : ℝ :=
    if 0 < height then
      let mach_height := height / yield ^ ((1 : ℝ) / 3)
      1.0 + 0.1 * Real.exp (-mach_height / 100.0)
    else 1.0
  let triple_point_height := 83 * yield ^ (0.4 : ℝ)
  let mach_stem_factor :=
    if 0 < height ∧ height < triple_point_height then mach_stem_factor * 1.25
    else mach_stem_factor
  ATMOSPHERIC_PRESSURE *
    (1.0 + 0.076 / scaled_distance + 0.255 / scaled_distance ^ (2 : ℝ) +
      0.536 / scaled_distance ^ (3 : ℝ)) * mach_stem_factor

/-- The stabilized cloud height of calculateFallout (lines 506-508):
ground-burst formula when height == 0, air-burst formula otherwise. -/
def stabilizedHeight (p : Params) : ℝ :=
  if p.height = 0 then 212.0 * p.yield ^ (0.375 : ℝ)
  else 188.0 * p.yield ^ (0.375 : ℝ)

/-- particleFraction (line 511): keyed on the isAirburst flag. -/
def particleFraction (p : Params) : ℝ :=
  if p.isAirburst then 0.3 * Real.exp (-p.height / (stabilizedHeight p * 0.7))
  else 1.0

/-- activityFraction (line 512). -/
def activityFraction (p : Params) : ℝ := 0.6 + 0.2 * Real.logb 10 p.yield

/-- effectiveYield (line 513). -/
def effectiveYield (p : Params) : ℝ := p.yield * particleFraction p * activityFraction p

/-- baseRadius (line 516): base fallout radius in meters. -/
def baseRadius (p : Params) : ℝ := 1000.0 * effectiveYield p ^ (0.4 : ℝ)

/-- The final fallout scale of calculateFallout (line 556): keyed on height == 0. -/
def falloutScale (p : Params) : ℝ := if p.height = 0 then 1.0 else 0.3

/-- calculateFallout (lines 502-560). -/
def calculateFallout (p : Params) : FalloutData :=
  let sH := stabilizedHeight p
  let pF := particleFraction p
  let eY := effectiveYield p
  let bR := baseRadius p
  let mdd : ℝ :=
    if p.windSpeed < 0.1 then bR / 1000.0
    else
      max (bR / 1000.0)
        (p.windSpeed * 3600.0 * (eY ^ (0.4 : ℝ) / GRAVITY) *
          (1.0 + 0.15 * Real.logb 10 p.yield))
  let mw : ℝ :=
    if p.windSpeed < 0.1 then bR / 1000.0
    else mdd * (0.14 + 0.02 * Real.logb 10 p.yield) * (sH / 1000.0) ^ (0.5 : ℝ)
  let ang : ℝ :=
    if p.windSpeed < 0.1 then 360.0
    else 40.0 * Real.exp (-p.height / (sH * 2.0)) *
      (1.0 - 0.1 * Real.logb 10 (max 1.0 p.windSpeed))
  let dza : ℝ :=
    if p.windSpeed < 0.1 then π * mdd ^ (2 : ℕ)
    else 0.5 * mdd * mw * pF * (1.0 - 0.2 * (if p.isAirburst then (1 : ℝ) else 0))
  { maxDownwindDistance := mdd
    maxWidth := mw
    falloutAngle := ang
    dangerousZoneArea := dza * falloutScale p }

/-- The blast cube-root scaling factor (line 799). -/
def blastScaling (yield : ℝ) : ℝ := yield ^ ((1 : ℝ) / 3)

/-- The thermal scaling factor (line 800). -/
def thermalScaling (yield : ℝ) : ℝ := yield ^ (0.4 : ℝ)

/-- The radiation scaling factor (line 801). -/
def radiationScaling (yield : ℝ) : ℝ := yield ^ (0.19 : ℝ)

/-- calculateEffects (lines 793-838): builds the three tier sets with their
areas, applies height effects when height > 0, then computes fallout.
The uninitialized fallout field before its assignment is modelled as zeros. -/
def calculateEffects (p : Params) : WeaponEffects :=
  let effects : WeaponEffects :=
    { blast :=
        { severe := 2000.0 * blastScaling p.yield
          moderate := 3000.0 * blastScaling p.yield
          light := 4500.0 * blastScaling p.yield
          severeArea := calculateArea (2000.0 * blastScaling p.yield)
          moderateArea := calculateArea (3000.0 * blastScaling p.yield)
          lightArea := calculateArea (4500.0 * blastScaling p.yield) }
      thermal :=
        { severe := 1200.0 * thermalScaling p.yield
          moderate := 1800.0 * thermalScaling p.yield
          light := 2400.0 * thermalScaling p.yield
          severeArea := calculateArea (1200.0 * thermalScaling p.yield)
          moderateArea := calculateArea (1800.0 * thermalScaling p.yield)
          lightArea := calculateArea (2400.0 * thermalScaling p.yield) }
      radiation :=
        { severe := 800.0 * radiationScaling p.yield
          moderate := 1200.0 * radiationScaling p.yield
          light := 1600.0 * radiationScaling p.yield
          severeArea := calculateArea (800.0 * radiationScaling p.yield)
          moderateArea := calculateArea (1200.0 * radiationScaling p.yield)
          lightArea := calculateArea (1600.0 * radiationScaling p.yield) }
      fallout := ⟨0, 0, 0, 0⟩ }
  let effects := if 0 < p.height then applyHeightEffects effects p.height else effects
  { effects with fallout := calculateFallout p }

/-- The effects calculation seen through a fallible interface: Except models the
failure channel a caller would observe.  The C++ calculateEffects (lines 793-838)
performs no input validation and returns unconditionally, so no input maps to
an error value. -/
def calculateEffectsResult (p : Params) : Except String WeaponEffects :=
  Except.ok (calculateEffects p)

/-- calculateDensityAtDistance (lines 599-615): population density at a radial
distance (km) from the city center. -/
def calculateDensityAtDistance (city : CityData) (distance : ℝ) : ℝ :=
  if distance ≤ city.radius then city.density * Real.exp (-distance / city.radius)
  else city.suburban_density * Real.exp (-(distance - city.radius) / (city.radius * 0.5))

/-- RINGS (line 635): number of concentric integration rings. -/
def RINGS : ℕ := 20

/-- maxRadius (lines 636-638): the largest of the three light-tier radii,
recovered from the areas. -/
def maxRadius (effects : WeaponEffects) : ℝ :=
  max (max (Real.sqrt (effects.blast.lightArea / π))
        (Real.sqrt (effects.thermal.lightArea / π)))
    (Real.sqrt (effects.radiation.lightArea / π))

/-- innerRadius of ring i (line 642). -/
def innerRadius (effects : WeaponEffects) (i : ℕ) : ℝ :=
  (i : ℝ) * maxRadius effects / (RINGS : ℝ)

/-- outerRadius of ring i (line 643). -/
def outerRadius (effects : WeaponEffects) (i : ℕ) : ℝ :=
  ((i : ℝ) + 1) * maxRadius effects / (RINGS : ℝ)

/-- ringArea of ring i (line 644). -/
def ringArea (effects : WeaponEffects) (i : ℕ) : ℝ :=
  π * (outerRadius effects i * outerRadius effects i -
    innerRadius effects i * innerRadius effects i)

/-- avgRadius of ring i (line 645): the ring midpoint. -/
def avgRadius (effects : WeaponEffects) (i : ℕ) : ℝ :=
  (innerRadius effects i + outerRadius effects i) / 2

/-- The body of the casualty ring loop (lines 640-675) for one ring: the blast
if/else-if chain, then the thermal severe-tier branch, then the radiation
severe-tier branch.  The moderate/light thermal branches and the moderate
radiation branch are only comments in the source (lines 667, 674). -/
def ringStep (city : CityData) (effects : WeaponEffects) (c : CasualtyEstimate)
    (i : ℕ) : CasualtyEstimate :=
  let rA := ringArea effects i
  let avg := avgRadius effects i
  let density := calculateDensityAtDistance city avg
  let c1 :=
    if avg ≤ Real.sqrt (effects.blast.severeArea / π) then
      { c with deaths := c.deaths + rA * density * 0.9 }
    else if avg ≤ Real.sqrt (effects.blast.moderateArea / π) then
      { c with severeInjuries := c.severeInjuries + rA * density * 0.5 }
    else if avg ≤ Real.sqrt (effects.blast.lightArea / π) then
      { c with lightInjuries := c.lightInjuries + rA * density * 0.3 }
    else c
  let c2 :=
    if avg ≤ Real.sqrt (effects.thermal.severeArea / π) then
      { c1 with deaths := c1.deaths + rA * density * 0.7 }
    else c1
  if avg ≤ Real.sqrt (effects.radiation.severeArea / π) then
    { c2 with severeInjuries := c2.severeInjuries + rA * density * 0.8 }
  else c2

/-- The full ring loop (lines 640-675), folded over rings 0..RINGS-1 starting
from the zero-initialized estimate (line 632). -/
def ringLoop (city : CityData) (effects : WeaponEffects) : CasualtyEstimate :=
  (List.range RINGS).foldl (ringStep city effects) ⟨0, 0, 0, 0, 0, 0, 0⟩

/-- calculateCasualties (lines 630-685): ring integration followed by the
fixed-fraction long-term mortality projection (lines 677-682). -/
def calculateCasualties (city : CityData) (effects : WeaponEffects) :
    CasualtyEstimate :=
  let c := ringLoop city effects
  let totalExposed := c.severeInjuries + c.lightInjuries
  { c with
    longTermDeaths1Year := totalExposed * 0.1
    longTermDeaths5Year := totalExposed * 0.2
    longTermDeaths10Year := totalExposed * 0.3
    longTermDeaths20Year := totalExposed * 0.4 }

/-- C4: for every heightOfBurst ≥ 0 the height-attenuation correction is
max(0.3, 1 − h/10000), it lies in [0.3, 1], equals 1 at h = 0, multiplies all
three blast radii and all three radiation radii, and leaves the thermal tier
unchanged. -/
theorem heightFactor_spec (effects : WeaponEffects) (h : ℝ) (hh : 0 ≤ h) :
    heightFactor h = max 0.3 (1 - h / 10000) ∧
    0.3 ≤ heightFactor h ∧ heightFactor h ≤ 1 ∧ heightFactor 0 = 1 ∧
    (applyHeightEffects effects h).blast.severe = effects.blast.severe * heightFactor h ∧
    (applyHeightEffects effects h).blast.moderate = effects.blast.moderate * heightFactor h ∧
    (applyHeightEffects effects h).blast.light = effects.blast.light * heightFactor h ∧
    (applyHeightEffects effects h).radiation.severe = effects.radiation.severe * heightFactor h ∧
    (applyHeightEffects effects h).radiation.moderate = effects.radiation.moderate * heightFactor h ∧
    (applyHeightEffects effects h).radiation.light = effects.radiation.light * heightFactor h ∧
    (applyHeightEffects effects h).thermal = effects.thermal := by
  refine ⟨by norm_num [heightFactor], le_max_left _ _, ?_, by norm_num [heightFactor], rfl, rfl,
    rfl, rfl, rfl, rfl, rfl⟩
  have h1 : (0.3 : ℝ) ≤ 1 := by norm_num
  have h2 : 1.0 - h / 10000.0 ≤ 1 := by nlinarith
  exact max_le h1 h2

/-- Witness for heightFactor_spec at a concrete height and effects value. -/
theorem heightFactor_spec_witness :
    (0 : ℝ) ≤ 500 ∧
    ((applyHeightEffects ⟨⟨1, 2, 3, 4, 5, 6⟩, ⟨10, 20, 30, 40, 50, 60⟩,
        ⟨7, 8, 9, 10, 11, 12⟩, ⟨0, 0, 0, 0⟩⟩ 500).thermal = ⟨1, 2, 3, 4, 5, 6⟩ ∧
      heightFactor 0 = 1) := by
  refine ⟨by norm_num, ?_, ?_⟩
  · exact (heightFactor_spec ⟨⟨1, 2, 3, 4, 5, 6⟩, ⟨10, 20, 30, 40, 50, 60⟩,
      ⟨7, 8, 9, 10, 11, 12⟩, ⟨0, 0, 0, 0⟩⟩ 500 (by norm_num)).2.2.2.2.2.2.2.2.2.2
  · exact (heightFactor_spec ⟨⟨1, 2, 3, 4, 5, 6⟩, ⟨10, 20, 30, 40, 50, 60⟩,
      ⟨7, 8, 9, 10, 11, 12⟩, ⟨0, 0, 0, 0⟩⟩ 500 (by norm_num)).2.2.2.1

/-- C1 counterexample: at yield 1 MT and burst height 1000 m the height step has
multiplied the severe blast radius to 1800 m, but its area field still holds
π·(2000/1000)², so area ≠ π·(radius/1000)² for the final radius. -/
theorem area_invariant_counterexample :
    (calculateEffects ⟨1, 1000, true, 0⟩).blast.severe = 1800 ∧
    (calculateEffects ⟨1, 1000, true, 0⟩).blast.severeArea ≠
      π * ((calculateEffects ⟨1, 1000, true, 0⟩).blast.severe / 1000) ^ (2 : ℕ) := by
  have hbs : blastScaling (1 : ℝ) = 1 := by simp [blastScaling]
  have hhf : heightFactor (1000 : ℝ) = 0.9 := by
    rw [heightFactor, max_eq_right] <;> norm_num
  have hsev : (calculateEffects ⟨1, 1000, true, 0⟩).blast.severe = 1800 := by
    simp only [calculateEffects, applyHeightEffects]
    rw [if_pos (by norm_num : (0 : ℝ) < 1000)]
    simp [hbs, hhf]
    norm_num
  refine ⟨hsev, ?_⟩
  have harea : (calculateEffects ⟨1, 1000, true, 0⟩).blast.severeArea = π * 4 := by
    simp only [calculateEffects, applyHeightEffects]
    rw [if_pos (by norm_num : (0 : ℝ) < 1000)]
    simp [hbs, calculateArea]
    norm_num
  rw [hsev, harea]
  intro hcontra
  have h4 : (4 : ℝ) = (1800 / 1000 : ℝ) ^ (2 : ℕ) := mul_left_cancel₀ pi_ne_zero hcontra
  norm_num at h4

/-- The nine area fields of calculateEffects are the areas of the
pre-attenuation (base) radii, whatever the burst height: applyHeightEffects
never touches an area field. -/
lemma calculateEffects_areas (p : Params) :
    (calculateEffects p).blast.severeArea = calculateArea (2000.0 * blastScaling p.yield) ∧
    (calculateEffects p).blast.moderateArea = calculateArea (3000.0 * blastScaling p.yield) ∧
    (calculateEffects p).blast.lightArea = calculateArea (4500.0 * blastScaling p.yield) ∧
    (calculateEffects p).thermal.severeArea = calculateArea (1200.0 * thermalScaling p.yield) ∧
    (calculateEffects p).thermal.moderateArea = calculateArea (1800.0 * thermalScaling p.yield) ∧
    (calculateEffects p).thermal.lightArea = calculateArea (2400.0 * thermalScaling p.yield) ∧
    (calculateEffects p).radiation.severeArea = calculateArea (800.0 * radiationScaling p.yield) ∧
    (calculateEffects p).radiation.moderateArea = calculateArea (1200.0 * radiationScaling p.yield) ∧
    (calculateEffects p).radiation.lightArea = calculateArea (1600.0 * radiationScaling p.yield) := by
  by_cases hp : 0 < p.height
  · simp [calculateEffects, applyHeightEffects, if_pos hp]
  · simp [calculateEffects, applyHeightEffects, if_neg hp]

/-- The thermal tier set of calculateEffects is never touched by the height
step: its radii stay at the base scaling-law values. -/
lemma calculateEffects_thermal (p : Params) :
    (calculateEffects p).thermal.severe = 1200.0 * thermalScaling p.yield ∧
    (calculateEffects p).thermal.moderate = 1800.0 * thermalScaling p.yield ∧
    (calculateEffects p).thermal.light = 2400.0 * thermalScaling p.yield := by
  by_cases hp : 0 < p.height
  · simp [calculateEffects, applyHeightEffects, if_pos hp]
  · simp [calculateEffects, applyHeightEffects, if_neg hp]

/-- When the height step does not run (height not positive), the blast and
radiation radii stay at their base values. -/
lemma calculateEffects_radii_of_not_pos (p : Params) (hp : ¬ 0 < p.height) :
    (calculateEffects p).blast.severe = 2000.0 * blastScaling p.yield ∧
    (calculateEffects p).radiation.severe = 800.0 * radiationScaling p.yield := by
  simp [calculateEffects, applyHeightEffects, if_neg hp]

/-- C1 amended: each tier area equals π·(r₀/1000)² for the pre-attenuation
radius r₀; the thermal tiers (never attenuated) satisfy the claim as stated
for their final radii, and the blast/radiation tiers do so at height 0, but
in general the blast and radiation areas are the areas of the base radii —
the height step rescales radii without recomputing areas. -/
theorem effects_area_of_base_radii (p : Params) (hy : 0 < p.yield)
    (hh : 0 ≤ p.height) :
    ((calculateEffects p).thermal.severeArea =
        π * ((calculateEffects p).thermal.severe / 1000) ^ (2 : ℕ) ∧
      (calculateEffects p).thermal.moderateArea =
        π * ((calculateEffects p).thermal.moderate / 1000) ^ (2 : ℕ) ∧
      (calculateEffects p).thermal.lightArea =
        π * ((calculateEffects p).thermal.light / 1000) ^ (2 : ℕ)) ∧
    ((calculateEffects p).blast.severeArea = calculateArea (2000.0 * blastScaling p.yield) ∧
      (calculateEffects p).blast.moderateArea = calculateArea (3000.0 * blastScaling p.yield) ∧
      (calculateEffects p).blast.lightArea = calculateArea (4500.0 * blastScaling p.yield)) ∧
    ((calculateEffects p).radiation.severeArea =
        calculateArea (800.0 * radiationScaling p.yield) ∧
      (calculateEffects p).radiation.moderateArea =
        calculateArea (1200.0 * radiationScaling p.yield) ∧
      (calculateEffects p).radiation.lightArea =
        calculateArea (1600.0 * radiationScaling p.yield)) ∧
    (p.height = 0 →
      (calculateEffects p).blast.severeArea =
        π * ((calculateEffects p).blast.severe / 1000) ^ (2 : ℕ) ∧
      (calculateEffects p).radiation.severeArea =
        π * ((calculateEffects p).radiation.severe / 1000) ^ (2 : ℕ)) := by
  obtain ⟨hb1, hb2, hb3, ht1, ht2, ht3, hr1, hr2, hr3⟩ := calculateEffects_areas p
  obtain ⟨hts, htm, htl⟩ := calculateEffects_thermal p
  refine ⟨⟨?_, ?_, ?_⟩, ⟨hb1, hb2, hb3⟩, ⟨hr1, hr2, hr3⟩, ?_⟩
  · rw [ht1, hts, calculateArea]; norm_num
  · rw [ht2, htm, calculateArea]; norm_num
  · rw [ht3, htl, calculateArea]; norm_num
  · intro h0
    have hp : ¬ 0 < p.height := by rw [h0]; exact lt_irrefl 0
    obtain ⟨hbs, hrs⟩ := calculateEffects_radii_of_not_pos p hp
    constructor
    · rw [hb1, hbs, calculateArea]; norm_num
    · rw [hr1, hrs, calculateArea]; norm_num

/-- Witness for effects_area_of_base_radii at yield 1 MT, surface burst. -/
theorem effects_area_of_base_radii_witness :
    (0 : ℝ) < 1 ∧ (0 : ℝ) ≤ 0 ∧
    (calculateEffects ⟨1, 0, false, 0⟩).blast.severeArea =
      calculateArea (2000.0 * blastScaling 1) :=
  ⟨by norm_num, le_refl 0,
    (effects_area_of_base_radii ⟨1, 0, false, 0⟩ (by norm_num) (le_refl 0)).2.1.1⟩

/-- The Mach-stem factor as the specification states it in closed form:
1 for height 0; 1 + 0.1·exp(−(h/y^(1/3))/100) for height > 0; with an
additional ×1.25 exactly when 0 < h < 83·y^0.4. -/
def machStemFactorSpec (yield height : ℝ) : ℝ :=
  (if 0 < height then 1 + 0.1 * Real.exp (-(height / yield ^ ((1 : ℝ) / 3)) / 100)
    else 1) *
  (if 0 < height ∧ height < 83 * yield ^ (0.4 : ℝ) then 1.25 else 1)

/-- C9: the blast overpressure equals
P₀·(1 + 0.076/s + 0.255/s² + 0.536/s³)·machStemFactor with
s = distance/(yield·4.184e15/P₀)^(1/3) and the Mach factor as specified. -/
theorem blast_overpressure_formula (d y h : ℝ) (hd : 0 < d) (hy : 0 < y)
    (hh : 0 ≤ h) :
    calculateBlastOverpressure d y h =
      ATMOSPHERIC_PRESSURE *
        (1 + 0.076 / (d / (y * 4.184e15 / ATMOSPHERIC_PRESSURE) ^ ((1 : ℝ) / 3)) +
          0.255 / (d / (y * 4.184e15 / ATMOSPHERIC_PRESSURE) ^ ((1 : ℝ) / 3)) ^ (2 : ℝ) +
          0.536 / (d / (y * 4.184e15 / ATMOSPHERIC_PRESSURE) ^ ((1 : ℝ) / 3)) ^ (3 : ℝ)) *
        machStemFactorSpec y h := by
  simp only [calculateBlastOverpressure, machStemFactorSpec]
  split_ifs <;> ring

/-- Witness for blast_overpressure_formula at distance 1 m, yield 1 MT,
surface burst. -/
theorem blast_overpressure_formula_witness :
    (0 : ℝ) < 1 ∧
    calculateBlastOverpressure 1 1 0 =
      ATMOSPHERIC_PRESSURE *
        (1 + 0.076 / ((1 : ℝ) / ((1 : ℝ) * 4.184e15 / ATMOSPHERIC_PRESSURE) ^ ((1 : ℝ) / 3)) +
          0.255 / ((1 : ℝ) / ((1 : ℝ) * 4.184e15 / ATMOSPHERIC_PRESSURE) ^ ((1 : ℝ) / 3)) ^ (2 : ℝ) +
          0.536 / ((1 : ℝ) / ((1 : ℝ) * 4.184e15 / ATMOSPHERIC_PRESSURE) ^ ((1 : ℝ) / 3)) ^ (3 : ℝ)) *
        machStemFactorSpec 1 0 :=
  ⟨by norm_num,
    blast_overpressure_formula 1 1 0 (by norm_num) (by norm_num) (le_refl 0)⟩

/-- C5 counterexample: at yield −1 (≤ 0) the effects calculation still returns
an ok result — there is no validation and no failure is surfaced to the caller. -/
theorem calculateEffects_no_failure_at_nonpos_yield :
    (⟨-1, 0, false, 0⟩ : Params).yield ≤ 0 ∧
    calculateEffectsResult ⟨-1, 0, false, 0⟩ =
      Except.ok (calculateEffects ⟨-1, 0, false, 0⟩) :=
  ⟨by norm_num, rfl⟩

/-- C5 amended: the core never fails fast — calculateEffects performs no yield
validation and returns a result for every input, yield ≤ 0 included; rejecting
out-of-domain yields is left entirely to the caller. -/
theorem calculateEffects_never_fails (p : Params) :
    ∃ e, calculateEffectsResult p = Except.ok e :=
  ⟨calculateEffects p, rfl⟩

/-- C7: with windSpeed < 0.1 km/h the fallout pattern is circular, whatever the
yield: maxDownwindDistance = maxWidth = baseRadius/1000, falloutAngle = 360,
and dangerousZoneArea = π·maxDownwindDistance² times the final ground/air scale. -/
theorem fallout_circular_when_calm (p : Params) (hy : 0 < p.yield)
    (hh : 0 ≤ p.height) (hw : p.windSpeed < 0.1) :
    (calculateFallout p).maxDownwindDistance = baseRadius p / 1000 ∧
    (calculateFallout p).maxWidth = (calculateFallout p).maxDownwindDistance ∧
    (calculateFallout p).falloutAngle = 360 ∧
    (calculateFallout p).dangerousZoneArea =
      π * (calculateFallout p).maxDownwindDistance ^ (2 : ℕ) * falloutScale p := by
  simp only [calculateFallout, if_pos hw]
  norm_num

/-- Witness for fallout_circular_when_calm at yield 50 MT, height 4000 m,
wind 0 (the Tsar-Bomba-scale scenario of the specification). -/
theorem fallout_circular_when_calm_witness :
    (0 : ℝ) < 50 ∧ (0 : ℝ) ≤ 4000 ∧ (0 : ℝ) < 0.1 ∧
    (calculateFallout ⟨50, 4000, true, 0⟩).falloutAngle = 360 ∧
    (calculateFallout ⟨50, 4000, true, 0⟩).maxWidth =
      (calculateFallout ⟨50, 4000, true, 0⟩).maxDownwindDistance := by
  refine ⟨by norm_num, by norm_num, by norm_num, ?_, ?_⟩
  · exact (fallout_circular_when_calm ⟨50, 4000, true, 0⟩ (by norm_num) (by norm_num)
      (by norm_num)).2.2.1
  · exact (fallout_circular_when_calm ⟨50, 4000, true, 0⟩ (by norm_num) (by norm_num)
      (by norm_num)).2.1

/-- C8: at heightOfBurst = 0 the fallout computation takes the ground-burst
branch — stabilized cloud height 212·yield^0.375 and final scale ×1.0 — and
never the air-burst branch (188·yield^0.375, ×0.3), for either value of the
isAirburst flag, since both are keyed on height == 0 exactly. -/
theorem fallout_ground_branch_at_zero_height (p : Params) (hy : 0 < p.yield)
    (hw : 0 ≤ p.windSpeed) (h0 : p.height = 0) :
    stabilizedHeight p = 212.0 * p.yield ^ (0.375 : ℝ) ∧
    stabilizedHeight p ≠ 188.0 * p.yield ^ (0.375 : ℝ) ∧
    falloutScale p = 1 ∧
    falloutScale p ≠ 0.3 ∧
    (calculateFallout p).dangerousZoneArea =
      (calculateFallout p).dangerousZoneArea * falloutScale p := by
  have hpow : (0 : ℝ) < p.yield ^ (0.375 : ℝ) := rpow_pos_of_pos hy _
  have hsc : falloutScale p = 1 := by rw [falloutScale, if_pos h0]; norm_num
  refine ⟨by rw [stabilizedHeight, if_pos h0], ?_, hsc, ?_, by rw [hsc, mul_one]⟩
  · rw [stabilizedHeight, if_pos h0]
    intro hcontra
    nlinarith
  · rw [hsc]
    norm_num

/-- Witness for fallout_ground_branch_at_zero_height at yield 1 MT, height 0,
with the isAirburst flag diverging (set to true). -/
theorem fallout_ground_branch_at_zero_height_witness :
    (0 : ℝ) < 1 ∧ (0 : ℝ) ≤ 5 ∧ (⟨1, 0, true, 5⟩ : Params).height = 0 ∧
    (stabilizedHeight ⟨1, 0, true, 5⟩ = 212.0 * (1 : ℝ) ^ (0.375 : ℝ) ∧
      falloutScale ⟨1, 0, true, 5⟩ = 1) := by
  refine ⟨by norm_num, by norm_num, rfl, ?_, ?_⟩
  · exact (fallout_ground_branch_at_zero_height ⟨1, 0, true, 5⟩ (by norm_num)
      (by norm_num) rfl).1
  · exact (fallout_ground_branch_at_zero_height ⟨1, 0, true, 5⟩ (by norm_num)
      (by norm_num) rfl).2.2.1

/-- The ring loop reads only area fields: two effects values with the same
blast severe/moderate/light, thermal severe/light and radiation severe/light
areas induce the same ring step. -/
lemma ringStep_eq_of_areas (city : CityData) (e₁ e₂ : WeaponEffects)
    (h1 : e₁.blast.severeArea = e₂.blast.severeArea)
    (h2 : e₁.blast.moderateArea = e₂.blast.moderateArea)
    (h3 : e₁.blast.lightArea = e₂.blast.lightArea)
    (h4 : e₁.thermal.severeArea = e₂.thermal.severeArea)
    (h5 : e₁.thermal.lightArea = e₂.thermal.lightArea)
    (h6 : e₁.radiation.severeArea = e₂.radiation.severeArea)
    (h7 : e₁.radiation.lightArea = e₂.radiation.lightArea) :
    ringStep city e₁ = ringStep city e₂ := by
  funext c i
  simp only [ringStep, ringArea, avgRadius, innerRadius, outerRadius, maxRadius,
    h1, h2, h3, h4, h5, h6, h7]

/-- C3: the casualty estimate depends on the detonation parameters only through
the yield — two runs with the same yield and city give identical casualties no
matter how heightOfBurst, isAirburst or windSpeed differ, because the ring
integration reads only the tier areas, which the height step never modifies. -/
theorem casualties_independent_of_height_wind (p₁ p₂ : Params) (city : CityData)
    (hpos : 0 < p₁.yield) (hy : p₁.yield = p₂.yield) :
    calculateCasualties city (calculateEffects p₁) =
      calculateCasualties city (calculateEffects p₂) := by
  obtain ⟨a1, a2, a3, a4, a5, a6, a7, a8, a9⟩ := calculateEffects_areas p₁
  obtain ⟨b1, b2, b3, b4, b5, b6, b7, b8, b9⟩ := calculateEffects_areas p₂
  have hstep : ringStep city (calculateEffects p₁) = ringStep city (calculateEffects p₂) :=
    ringStep_eq_of_areas city _ _ (by rw [a1, b1, hy]) (by rw [a2, b2, hy])
      (by rw [a3, b3, hy]) (by rw [a4, b4, hy]) (by rw [a6, b6, hy])
      (by rw [a7, b7, hy]) (by rw [a9, b9, hy])
  simp only [calculateCasualties, ringLoop, hstep]

/-- Witness for casualties_independent_of_height_wind: yield 1 MT, one surface
burst with no wind against one 500 m airburst with 10 km/h wind. -/
theorem casualties_independent_of_height_wind_witness :
    (0 : ℝ) < 1 ∧ (⟨1, 0, false, 0⟩ : Params).yield = (⟨1, 500, true, 10⟩ : Params).yield ∧
    calculateCasualties ⟨1000, 500, 10⟩ (calculateEffects ⟨1, 0, false, 0⟩) =
      calculateCasualties ⟨1000, 500, 10⟩ (calculateEffects ⟨1, 500, true, 10⟩) :=
  ⟨by norm_num, rfl,
    casualties_independent_of_height_wind ⟨1, 0, false, 0⟩ ⟨1, 500, true, 10⟩
      ⟨1000, 500, 10⟩ (by norm_num) rfl⟩

/-- The population density is non-negative whenever both model densities are. -/
lemma density_nonneg (city : CityData) (hd : 0 ≤ city.density)
    (hs : 0 ≤ city.suburban_density) (d : ℝ) :
    0 ≤ calculateDensityAtDistance city d := by
  rw [calculateDensityAtDistance]
  split_ifs
  · exact mul_nonneg hd (Real.exp_nonneg _)
  · exact mul_nonneg hs (Real.exp_nonneg _)

/-- The integration radius is non-negative (it is a max of square roots). -/
lemma maxRadius_nonneg (e : WeaponEffects) : 0 ≤ maxRadius e :=
  le_trans (Real.sqrt_nonneg _) (le_max_right _ _)

/-- Each ring has non-negative area. -/
lemma ringArea_nonneg (e : WeaponEffects) (i : ℕ) : 0 ≤ ringArea e i := by
  rw [ringArea, innerRadius, outerRadius]
  have hm := maxRadius_nonneg e
  have hi : (0 : ℝ) ≤ (i : ℝ) := Nat.cast_nonneg i
  have hRINGS : (0 : ℝ) < (RINGS : ℝ) := by norm_num [RINGS]
  have hio : (i : ℝ) * maxRadius e / (RINGS : ℝ) ≤
      ((i : ℝ) + 1) * maxRadius e / (RINGS : ℝ) :=
    div_le_div_of_nonneg_right (by nlinarith) hRINGS.le
  have hinn : 0 ≤ (i : ℝ) * maxRadius e / (RINGS : ℝ) :=
    div_nonneg (mul_nonneg hi hm) hRINGS.le
  have hsq : (i : ℝ) * maxRadius e / (RINGS : ℝ) * ((i : ℝ) * maxRadius e / (RINGS : ℝ)) ≤
      ((i : ℝ) + 1) * maxRadius e / (RINGS : ℝ) * (((i : ℝ) + 1) * maxRadius e / (RINGS : ℝ)) :=
    mul_le_mul hio hio hinn (le_trans hinn hio)
  exact mul_nonneg Real.pi_nonneg (by linarith)

/-- One ring step never decreases the deaths, severe-injury or light-injury
accumulators (given a non-negative density model). -/
lemma ringStep_mono (city : CityData) (hd : 0 ≤ city.density)
    (hs : 0 ≤ city.suburban_density) (e : WeaponEffects) (c : CasualtyEstimate)
    (i : ℕ) :
    c.deaths ≤ (ringStep city e c i).deaths ∧
    c.severeInjuries ≤ (ringStep city e c i).severeInjuries ∧
    c.lightInjuries ≤ (ringStep city e c i).lightInjuries := by
  have had : 0 ≤ ringArea e i * calculateDensityAtDistance city (avgRadius e i) :=
    mul_nonneg (ringArea_nonneg e i) (density_nonneg city hd hs _)
  simp only [ringStep]
  split_ifs <;> refine ⟨?_, ?_, ?_⟩ <;> simp <;> nlinarith

/-- The ring-loop accumulators stay non-negative. -/
lemma ringLoop_nonneg (city : CityData) (hd : 0 ≤ city.density)
    (hs : 0 ≤ city.suburban_density) (e : WeaponEffects) :
    0 ≤ (ringLoop city e).deaths ∧ 0 ≤ (ringLoop city e).severeInjuries ∧
    0 ≤ (ringLoop city e).lightInjuries := by
  rw [ringLoop]
  have aux : ∀ (l : List ℕ) (c : CasualtyEstimate),
      0 ≤ c.deaths → 0 ≤ c.severeInjuries → 0 ≤ c.lightInjuries →
      0 ≤ (l.foldl (ringStep city e) c).deaths ∧
      0 ≤ (l.foldl (ringStep city e) c).severeInjuries ∧
      0 ≤ (l.foldl (ringStep city e) c).lightInjuries := by
    intro l
    induction l with
    | nil => exact fun c h1 h2 h3 => ⟨h1, h2, h3⟩
    | cons a t ih =>
      intro c h1 h2 h3
      obtain ⟨m1, m2, m3⟩ := ringStep_mono city hd hs e c a
      exact ih _ (le_trans h1 m1) (le_trans h2 m2) (le_trans h3 m3)
  exact aux _ _ le_rfl le_rfl le_rfl

/-- C10: for a valid input the casualty estimate has non-negative deaths and
injuries; the four delayed-mortality fields equal exactly 10 %, 20 %, 30 % and
40 % of (severeInjuries + lightInjuries); and they are non-decreasing in the
time horizon. -/
theorem casualty_estimate_nonneg_monotone (p : Params) (city : CityData)
    (hy : 0 < p.yield) (hd : 0 ≤ city.density) (hs : 0 ≤ city.suburban_density) :
    0 ≤ (calculateCasualties city (calculateEffects p)).deaths ∧
    0 ≤ (calculateCasualties city (calculateEffects p)).severeInjuries ∧
    0 ≤ (calculateCasualties city (calculateEffects p)).lightInjuries ∧
    ((calculateCasualties city (calculateEffects p)).longTermDeaths1Year =
      0.1 * ((calculateCasualties city (calculateEffects p)).severeInjuries +
        (calculateCasualties city (calculateEffects p)).lightInjuries) ∧
     (calculateCasualties city (calculateEffects p)).longTermDeaths5Year =
      0.2 * ((calculateCasualties city (calculateEffects p)).severeInjuries +
        (calculateCasualties city (calculateEffects p)).lightInjuries) ∧
     (calculateCasualties city (calculateEffects p)).longTermDeaths10Year =
      0.3 * ((calculateCasualties city (calculateEffects p)).severeInjuries +
        (calculateCasualties city (calculateEffects p)).lightInjuries) ∧
     (calculateCasualties city (calculateEffects p)).longTermDeaths20Year =
      0.4 * ((calculateCasualties city (calculateEffects p)).severeInjuries +
        (calculateCasualties city (calculateEffects p)).lightInjuries)) ∧
    ((calculateCasualties city (calculateEffects p)).longTermDeaths1Year ≤
      (calculateCasualties city (calculateEffects p)).longTermDeaths5Year ∧
     (calculateCasualties city (calculateEffects p)).longTermDeaths5Year ≤
      (calculateCasualties city (calculateEffects p)).longTermDeaths10Year ∧
     (calculateCasualties city (calculateEffects p)).longTermDeaths10Year ≤
      (calculateCasualties city (calculateEffects p)).longTermDeaths20Year) := by
  obtain ⟨h1, h2, h3⟩ := ringLoop_nonneg city hd hs (calculateEffects p)
  simp only [calculateCasualties]
  refine ⟨h1, h2, h3, ⟨by ring, by ring, by ring, by ring⟩, ?_, ?_, ?_⟩ <;> nlinarith

/-- Witness for casualty_estimate_nonneg_monotone at yield 1 MT, surface burst,
Berlin-like density model. -/
theorem casualty_estimate_nonneg_monotone_witness :
    (0 : ℝ) < 1 ∧ (0 : ℝ) ≤ 4147 ∧ (0 : ℝ) ≤ 1800 ∧
    (0 ≤ (calculateCasualties ⟨4147, 1800, 16.8⟩ (calculateEffects ⟨1, 0, false, 0⟩)).deaths ∧
      (calculateCasualties ⟨4147, 1800, 16.8⟩ (calculateEffects ⟨1, 0, false, 0⟩)).longTermDeaths1Year ≤
        (calculateCasualties ⟨4147, 1800, 16.8⟩ (calculateEffects ⟨1, 0, false, 0⟩)).longTermDeaths5Year) := by
  refine ⟨by norm_num, by norm_num, by norm_num, ?_, ?_⟩
  · exact (casualty_estimate_nonneg_monotone ⟨1, 0, false, 0⟩ ⟨4147, 1800, 16.8⟩
      (by norm_num) (by norm_num) (by norm_num)).1
  · exact (casualty_estimate_nonneg_monotone ⟨1, 0, false, 0⟩ ⟨4147, 1800, 16.8⟩
      (by norm_num) (by norm_num) (by norm_num)).2.2.2.2.1

/-- Cancelling π in the tier-radius recovery sqrt(π·a²/π). -/
lemma pi_mul_div_pi (a : ℝ) : π * a / π = a :=
  mul_div_cancel_left₀ a Real.pi_ne_zero

/-- A concrete city model with positive densities, used as test input. -/
def cexCity : CityData := ⟨1000, 500, 5⟩

/-- A concrete effects value whose only non-zero tiers are thermal moderate
(radius 10 km) and thermal light (radius 20 km): every ring midpoint is outside
all severe tiers and all blast tiers, and midpoints up to 10 km lie inside the
thermal moderate tier. -/
def cexEffects : WeaponEffects :=
  { blast := ⟨0, 0, 0, 0, 0, 0⟩
    thermal := ⟨0, 0, 0, 0, π * 100, π * 400⟩
    radiation := ⟨0, 0, 0, 0, 0, 0⟩
    fallout := ⟨0, 0, 0, 0⟩ }

/-- The integration radius of the concrete effects value is 20 km. -/
lemma cexEffects_maxRadius : maxRadius cexEffects = 20 := by
  have h400 : π * 400 / π = 400 := pi_mul_div_pi 400
  have hsq : Real.sqrt 400 = 20 := by
    rw [show (400 : ℝ) = 20 ^ 2 by norm_num, Real.sqrt_sq (by norm_num : (0 : ℝ) ≤ 20)]
  simp only [maxRadius, cexEffects, zero_div, Real.sqrt_zero, h400, hsq]
  norm_num

/-- Ring midpoints are positive whenever the integration radius is. -/
lemma avgRadius_pos (e : WeaponEffects) (i : ℕ) (hm : 0 < maxRadius e) :
    0 < avgRadius e i := by
  have hi : (0 : ℝ) ≤ (i : ℝ) := Nat.cast_nonneg i
  have hRINGS : (0 : ℝ) < (RINGS : ℝ) := by norm_num [RINGS]
  have h1 : 0 ≤ (i : ℝ) * maxRadius e / (RINGS : ℝ) :=
    div_nonneg (mul_nonneg hi hm.le) hRINGS.le
  have h2 : 0 < ((i : ℝ) + 1) * maxRadius e / (RINGS : ℝ) :=
    div_pos (mul_pos (by linarith) hm) hRINGS
  rw [avgRadius, innerRadius, outerRadius]
  linarith

/-- When every guarded tier area is zero and the ring midpoint is positive, the
ring loop body leaves the accumulators unchanged, whatever the thermal
moderate/light and radiation moderate/light areas hold. -/
lemma ringStep_eq_self_of_zero_guards (city : CityData) (e : WeaponEffects)
    (hb1 : e.blast.severeArea = 0) (hb2 : e.blast.moderateArea = 0)
    (hb3 : e.blast.lightArea = 0) (ht : e.thermal.severeArea = 0)
    (hr : e.radiation.severeArea = 0) (c : CasualtyEstimate) (i : ℕ)
    (havg : 0 < avgRadius e i) :
    ringStep city e c i = c := by
  simp only [ringStep, hb1, hb2, hb3, ht, hr, zero_div, Real.sqrt_zero,
    if_neg (not_le.mpr havg)]

/-- C2 counterexample: rings of the concrete scenario have midpoints inside the
thermal moderate tier and positive population density, yet the casualty
estimate is identically zero — the ring loop accumulates nothing for the
thermal moderate/light tiers or the radiation moderate tier. -/
theorem thermal_moderate_ring_counterexample :
    Real.sqrt (cexEffects.thermal.severeArea / π) < avgRadius cexEffects 0 ∧
    avgRadius cexEffects 0 ≤ Real.sqrt (cexEffects.thermal.moderateArea / π) ∧
    0 < calculateDensityAtDistance cexCity (avgRadius cexEffects 0) ∧
    calculateCasualties cexCity cexEffects = ⟨0, 0, 0, 0, 0, 0, 0⟩ := by
  have havg : avgRadius cexEffects 0 = 1 / 2 := by
    rw [avgRadius, innerRadius, outerRadius, cexEffects_maxRadius]
    norm_num [RINGS]
  have h100 : π * 100 / π = 100 := pi_mul_div_pi 100
  have hsq10 : Real.sqrt 100 = 10 := by
    rw [show (100 : ℝ) = 10 ^ 2 by norm_num, Real.sqrt_sq (by norm_num : (0 : ℝ) ≤ 10)]
  refine ⟨?_, ?_, ?_, ?_⟩
  · show Real.sqrt ((0 : ℝ) / π) < avgRadius cexEffects 0
    rw [zero_div, Real.sqrt_zero, havg]
    norm_num
  · show avgRadius cexEffects 0 ≤ Real.sqrt (π * 100 / π)
    rw [h100, hsq10, havg]
    norm_num
  · rw [havg, calculateDensityAtDistance,
      if_pos (by norm_num [cexCity] : (1 : ℝ) / 2 ≤ cexCity.radius)]
    simp only [cexCity]
    positivity
  · have hstep : ∀ (c : CasualtyEstimate) (i : ℕ), ringStep cexCity cexEffects c i = c :=
      fun c i => ringStep_eq_self_of_zero_guards cexCity cexEffects rfl rfl rfl rfl rfl c i
        (avgRadius_pos cexEffects i (by rw [cexEffects_maxRadius]; norm_num))
    have hfold : ∀ (l : List ℕ) (c : CasualtyEstimate),
        l.foldl (ringStep cexCity cexEffects) c = c := by
      intro l
      induction l with
      | nil => exact fun c => rfl
      | cons a t ih => intro c; rw [List.foldl_cons, hstep]; exact ih c
    have hloop : ringLoop cexCity cexEffects = ⟨0, 0, 0, 0, 0, 0, 0⟩ := by
      rw [ringLoop, hfold]
    simp only [calculateCasualties, hloop]
    norm_num

/-- C2 amended: the ring loop computes only the severe-tier contributions for
thermal and radiation — a ring whose midpoint lies strictly outside every
severe tier and every blast tier contributes nothing, even when the midpoint
falls inside the thermal moderate/light tier or the radiation moderate tier. -/
theorem ring_contribution_severe_tiers_only (city : CityData) (e : WeaponEffects)
    (c : CasualtyEstimate) (i : ℕ)
    (hb1 : Real.sqrt (e.blast.severeArea / π) < avgRadius e i)
    (hb2 : Real.sqrt (e.blast.moderateArea / π) < avgRadius e i)
    (hb3 : Real.sqrt (e.blast.lightArea / π) < avgRadius e i)
    (ht : Real.sqrt (e.thermal.severeArea / π) < avgRadius e i)
    (hr : Real.sqrt (e.radiation.severeArea / π) < avgRadius e i)
    (hin : avgRadius e i ≤ Real.sqrt (e.thermal.moderateArea / π) ∨
      avgRadius e i ≤ Real.sqrt (e.thermal.lightArea / π) ∨
      avgRadius e i ≤ Real.sqrt (e.radiation.moderateArea / π)) :
    ringStep city e c i = c := by
  simp only [ringStep, if_neg (not_le.mpr hb1), if_neg (not_le.mpr hb2),
    if_neg (not_le.mpr hb3), if_neg (not_le.mpr ht), if_neg (not_le.mpr hr)]

/-- Witness for ring_contribution_severe_tiers_only: ring 0 of the concrete
scenario, with midpoint inside the thermal moderate tier, leaves a non-zero
accumulator value untouched. -/
theorem ring_contribution_severe_tiers_only_witness :
    Real.sqrt (cexEffects.blast.severeArea / π) < avgRadius cexEffects 0 ∧
    avgRadius cexEffects 0 ≤ Real.sqrt (cexEffects.thermal.moderateArea / π) ∧
    ringStep cexCity cexEffects ⟨1, 2, 3, 4, 5, 6, 7⟩ 0 = ⟨1, 2, 3, 4, 5, 6, 7⟩ := by
  have havg : avgRadius cexEffects 0 = 1 / 2 := by
    rw [avgRadius, innerRadius, outerRadius, cexEffects_maxRadius]
    norm_num [RINGS]
  have h100 : π * 100 / π = 100 := pi_mul_div_pi 100
  have hsq10 : Real.sqrt 100 = 10 := by
    rw [show (100 : ℝ) = 10 ^ 2 by norm_num, Real.sqrt_sq (by norm_num : (0 : ℝ) ≤ 10)]
  have hz : ∀ x : ℝ, x = 0 → Real.sqrt (x / π) < avgRadius cexEffects 0 := by
    intro x hx
    rw [hx, zero_div, Real.sqrt_zero, havg]
    norm_num
  have hmod : avgRadius cexEffects 0 ≤ Real.sqrt (cexEffects.thermal.moderateArea / π) := by
    show avgRadius cexEffects 0 ≤ Real.sqrt (π * 100 / π)
    rw [h100, hsq10, havg]
    norm_num
  exact ⟨hz _ rfl, hmod,
    ring_contribution_severe_tiers_only cexCity cexEffects ⟨1, 2, 3, 4, 5, 6, 7⟩ 0
      (hz _ rfl) (hz _ rfl) (hz _ rfl) (hz _ rfl) (hz _ rfl) (Or.inl hmod)⟩

/-- The density function's value at the core boundary (the left branch is
inclusive there): coreDensity·exp(−1). -/
lemma density_at_boundary (city : CityData) (hR : 0 < city.radius) :
    calculateDensityAtDistance city city.radius = city.density * Real.exp (-1) := by
  rw [calculateDensityAtDistance, if_pos le_rfl, neg_div, div_self hR.ne']

/-- The density function tends to suburbanDensity from the right of the core
boundary. -/
lemma density_tendsto_right (city : CityData) (hR : 0 < city.radius) :
    Tendsto (calculateDensityAtDistance city) (𝓝[>] city.radius)
      (𝓝 city.suburban_density) := by
  have hg : ContinuousAt
      (fun d => city.suburban_density * Real.exp (-(d - city.radius) / (city.radius * 0.5)))
      city.radius := by
    have : Continuous
        (fun d : ℝ => city.suburban_density * Real.exp (-(d - city.radius) / (city.radius * 0.5))) := by
      continuity
    exact this.continuousAt
  have hgval : city.suburban_density *
      Real.exp (-(city.radius - city.radius) / (city.radius * 0.5)) = city.suburban_density := by
    simp
  have h1 : Tendsto
      (fun d => city.suburban_density * Real.exp (-(d - city.radius) / (city.radius * 0.5)))
      (𝓝[>] city.radius) (𝓝 city.suburban_density) := by
    have := hg.tendsto
    rw [hgval] at this
    exact this.mono_left nhdsWithin_le_nhds
  apply h1.congr'
  filter_upwards [self_mem_nhdsWithin] with x hx
  rw [calculateDensityAtDistance, if_neg (not_le.mpr hx)]

/-- The density function is always continuous from the left at the boundary
(the definition agrees with the continuous core branch on Iic coreRadius). -/
lemma density_continuousWithinAt_left (city : CityData) (hR : 0 < city.radius) :
    ContinuousWithinAt (calculateDensityAtDistance city) (Iic city.radius)
      city.radius := by
  have hg : ContinuousWithinAt (fun d => city.density * Real.exp (-d / city.radius))
      (Iic city.radius) city.radius := by
    have : Continuous (fun d : ℝ => city.density * Real.exp (-d / city.radius)) := by
      continuity
    exact this.continuousAt.continuousWithinAt
  apply hg.congr
  · intro y hy
    rw [calculateDensityAtDistance, if_pos (mem_Iic.mp hy)]
  · rw [calculateDensityAtDistance, if_pos le_rfl]

/-- Continuity of the density function at the core boundary is equivalent to
suburbanDensity = coreDensity·exp(−1). -/
lemma density_continuousAt_boundary_iff (city : CityData) (hR : 0 < city.radius) :
    ContinuousAt (calculateDensityAtDistance city) city.radius ↔
      city.suburban_density = city.density * Real.exp (-1) := by
  constructor
  · intro hcont
    have hright : Tendsto (calculateDensityAtDistance city) (𝓝[>] city.radius)
        (𝓝 (calculateDensityAtDistance city city.radius)) :=
      hcont.tendsto.mono_left nhdsWithin_le_nhds
    have := tendsto_nhds_unique (density_tendsto_right city hR) hright
    rwa [density_at_boundary city hR] at this
  · intro hs
    rw [continuousAt_iff_continuous_left_right]
    refine ⟨density_continuousWithinAt_left city hR, ?_⟩
    rw [← continuousWithinAt_Ioi_iff_Ici]
    have : Tendsto (calculateDensityAtDistance city) (𝓝[>] city.radius)
        (𝓝 (calculateDensityAtDistance city city.radius)) := by
      rw [density_at_boundary city hR, ← hs]
      exact density_tendsto_right city hR
    exact this

/-- C6 counterexample: the model (coreDensity = e, suburbanDensity = 1,
coreRadius = 1) has all parameters positive and its density function IS
continuous at the core boundary although coreDensity ≠ suburbanDensity. -/
theorem density_continuity_counterexample :
    0 < (⟨Real.exp 1, 1, 1⟩ : CityData).density ∧
    0 < (⟨Real.exp 1, 1, 1⟩ : CityData).suburban_density ∧
    0 < (⟨Real.exp 1, 1, 1⟩ : CityData).radius ∧
    ContinuousAt (calculateDensityAtDistance ⟨Real.exp 1, 1, 1⟩)
      (⟨Real.exp 1, 1, 1⟩ : CityData).radius ∧
    (⟨Real.exp 1, 1, 1⟩ : CityData).density ≠
      (⟨Real.exp 1, 1, 1⟩ : CityData).suburban_density := by
  have he1 : (1 : ℝ) < Real.exp 1 := by
    have := Real.add_one_le_exp (1 : ℝ)
    linarith
  refine ⟨by positivity, by norm_num, by norm_num, ?_, ?_⟩
  · rw [density_continuousAt_boundary_iff ⟨Real.exp 1, 1, 1⟩ (by norm_num)]
    show (1 : ℝ) = Real.exp 1 * Real.exp (-1)
    rw [← Real.exp_add]
    norm_num
  · show Real.exp 1 ≠ 1
    intro hcontra
    rw [hcontra] at he1
    exact lt_irrefl 1 he1

/-- C6 amended: for every model with positive parameters, the density function
is continuous at distance = coreRadius if and only if
suburbanDensity = coreDensity·exp(−1); in particular continuity forces
coreDensity ≠ suburbanDensity (the claimed condition is never what makes it
continuous). -/
theorem density_boundary_continuity_characterization (city : CityData)
    (hc : 0 < city.density) (hs : 0 < city.suburban_density)
    (hR : 0 < city.radius) :
    (ContinuousAt (calculateDensityAtDistance city) city.radius ↔
      city.suburban_density = city.density * Real.exp (-1)) ∧
    (ContinuousAt (calculateDensityAtDistance city) city.radius →
      city.density ≠ city.suburban_density) := by
  have hiff := density_continuousAt_boundary_iff city hR
  refine ⟨hiff, ?_⟩
  intro hcont heq
  have h1 := hiff.mp hcont
  rw [← heq] at h1
  have he : Real.exp (-1) < 1 := by
    calc Real.exp (-1) < Real.exp 0 := Real.exp_lt_exp.mpr (by norm_num)
    _ = 1 := Real.exp_zero
  nlinarith

/-- Witness for density_boundary_continuity_characterization at the concrete
model (2, 1, 1). -/
theorem density_boundary_continuity_characterization_witness :
    (0 : ℝ) < 2 ∧ (0 : ℝ) < 1 ∧
    ((ContinuousAt (calculateDensityAtDistance ⟨2, 1, 1⟩)
        (⟨2, 1, 1⟩ : CityData).radius ↔
      (⟨2, 1, 1⟩ : CityData).suburban_density =
        (⟨2, 1, 1⟩ : CityData).density * Real.exp (-1)) ∧
     (ContinuousAt (calculateDensityAtDistance ⟨2, 1, 1⟩)
        (⟨2, 1, 1⟩ : CityData).radius →
      (⟨2, 1, 1⟩ : CityData).density ≠ (⟨2, 1, 1⟩ : CityData).suburban_density)) :=
  ⟨by norm_num, by norm_num,
    density_boundary_continuity_characterization ⟨2, 1, 1⟩ (by norm_num) (by norm_num)
      (by norm_num)⟩

end NucCalc
